import Mathlib

/-!
# Verification of the employee-engagement comparison pipeline

Shallow embedding of `src/task3_compare_engagement_levels.py`, a single-pass
Spark batch job: load a CSV of survey rows, derive a numeric engagement
column, group by job title, average, sort descending, and write one CSV file.

Columns are modelled as `Option`-valued (Spark columns are nullable), tables
as lists of rows, and the floating-point average as an exact rational.
The three-valued comparison semantics of Spark (`col == lit` is null on a null
column, and `when` only fires on a true condition) are embedded explicitly.
-/

namespace Engagement

/-- One input row under the fixed six-column schema declared in `load_data`:
`EmployeeID INT, Department STRING, JobTitle STRING, SatisfactionRating INT,
EngagementLevel STRING, ReportsConcerns BOOLEAN, ProvidedSuggestions BOOLEAN`.
Every column is nullable, as in Spark. -/
structure Row where
  employeeID : Option ℤ
  department : Option String
  jobTitle : Option String
  satisfactionRating : Option ℤ
  engagementLevel : Option String
  reportsConcerns : Option Bool
  providedSuggestions : Option Bool
deriving DecidableEq, Repr

/-- Spark SQL equality of a nullable string column with a literal:
null input yields null, otherwise a Boolean. -/
def sparkEqStr (a : Option String) (b : String) : Option Bool :=
  a.map (fun s => decide (s = b))

/-- Spark `when(c1, v1).when(c2, v2)....otherwise(e)`: the first branch whose
condition is literally `true` (not null, not false) fires; otherwise `e`. -/
def caseWhen : List (Option Bool × Option ℤ) → Option ℤ → Option ℤ
  | [], els => els
  | (c, v) :: rest, els => if c = some true then v else caseWhen rest els

/-- The derived `EngagementLevelNumeric` value of one `EngagementLevel` cell,
embedding lines 29-34 of the source:
`when(col == "Low", 1).when(col == "Medium", 2).when(col == "High", 3).otherwise(None)`. -/
def engagementLevelNumeric (e : Option String) : Option ℤ :=
  caseWhen
    [(sparkEqStr e "Low", some 1),
     (sparkEqStr e "Medium", some 2),
     (sparkEqStr e "High", some 3)]
    none

/-- The transformer `convert_engagement_to_numeric`: append the derived column
`EngagementLevelNumeric` to every row (`withColumn`). -/
def convert_engagement_to_numeric (df : List Row) : List (Row × Option ℤ) :=
  df.map (fun r => (r, engagementLevelNumeric r.engagementLevel))

/-- The Spark `avg` aggregate over a nullable integer column: nulls are skipped
in both the sum and the count; a group with no non-null value has a null
average. The `DOUBLE` result is modelled exactly as a rational. -/
def sparkAvg (xs : List (Option ℤ)) : Option ℚ :=
  let vs := xs.filterMap id
  if vs.isEmpty then none
  else some (mkRat vs.sum vs.length)

/-- A result row: `JobTitle` (nullable) and `AvgEngagementLevel` (nullable). -/
abbrev ResultRow := Option String × Option ℚ

/-- Sort key for `orderBy(col("AvgEngagementLevel").desc())`: the Spark
`desc` order puts nulls last, i.e. a null average ranks below every present value. -/
def toKey : Option ℚ → WithBot ℚ
  | none => ⊥
  | some x => (x : WithBot ℚ)

/-- The descending comparison used by the `orderBy`: the key of an earlier row is
at least the key of a later row (nulls last). -/
def resultGE (p q : ResultRow) : Prop := toKey q.2 ≤ toKey p.2

instance : DecidableRel resultGE :=
  fun p q => inferInstanceAs (Decidable (toKey q.2 ≤ toKey p.2))

instance : IsTotal ResultRow resultGE :=
  ⟨fun a b => le_total (toKey b.2) (toKey a.2)⟩

instance : IsTrans ResultRow resultGE :=
  ⟨fun _ _ _ hab hbc => le_trans hbc hab⟩

/-- The aggregation `compare_engagement_levels`: convert the engagement column, group by
`JobTitle` (one group per distinct value, null included), aggregate with
`avg("EngagementLevelNumeric")`, and sort by the average descending. -/
def compare_engagement_levels (df : List Row) : List ResultRow :=
  let dfc := convert_engagement_to_numeric df
  let grouped : List ResultRow :=
    ((dfc.map (fun p => p.1.jobTitle)).dedup).map
      (fun t =>
        (t, sparkAvg ((dfc.filter (fun p => decide (p.1.jobTitle = t))).map Prod.snd)))
  List.insertionSort resultGE grouped

/-! ## Vocabulary for stating the claims -/

/-- The rows of `df` whose `JobTitle` is `t` (the aggregation partition). -/
def groupRows (df : List Row) (t : Option String) : List Row :=
  df.filter (fun r => decide (r.jobTitle = t))

/-- The present (non-null) derived numeric values of a list of rows. -/
def presentNumerics (rows : List Row) : List ℤ :=
  rows.filterMap (fun r => engagementLevelNumeric r.engagementLevel)

/-- Modelled from the spec: the three-way mapping of section 3, stated as a
plain case function on the whole cell value, to be compared with the embedded `when`
chain. -/
def specNumericOfLevel (e : Option String) : Option ℤ :=
  if e = some "Low" then some 1
  else if e = some "Medium" then some 2
  else if e = some "High" then some 3
  else none

/-- Modelled from the spec: the invariant quantity of section 3, the number of
distinct `JobTitle`
values having at least one row with a present derived numeric value. -/
def specTitleCountWithPresent (df : List Row) : ℕ :=
  (((df.map Row.jobTitle).dedup).filter
    (fun t => !(presentNumerics (groupRows df t)).isEmpty)).length

/-! ## Driver, loader and writer

The driver touches exactly two hard-coded paths: the input CSV and the output
path (whose parent directory it may create). The observable world is modelled
by those two slots plus the existence of the output directory; an input file
is modelled as its parsed table, the written output as the list of part files
Spark leaves at the output path. -/

/-- The hard-coded input path of `main`. -/
def input_file : String :=
  "/workspaces/spark-structured-api-employee-engagement-analysis-bhanukocherla/input/employee_data.csv"

/-- The hard-coded output path of `main`. -/
def output_file : String :=
  "/workspaces/spark-structured-api-employee-engagement-analysis-bhanukocherla/outputs/task3/engagement_comparison.csv"

/-- One CSV part file written by Spark: a header flag and its data rows. -/
structure PartFile where
  header : Bool
  rows : List ResultRow
deriving DecidableEq, Repr

/-- The observable file-system state the program can touch: the content at
the input path (`none` = absent), whether the output directory exists, and
the content at the output path (`none` = absent). -/
structure World where
  input : Option (List Row)
  outDirExists : Bool
  output : Option (List PartFile)
deriving DecidableEq, Repr

/-- The observable effects of one run: lines printed to standard output,
whether the Spark session was stopped, and the process exit code. -/
structure RunLog where
  printed : List String
  stopped : Bool
  exitCode : ℕ
deriving DecidableEq, Repr

/-- The loader `load_data`: raise `FileNotFoundError` (as `Except.error` carrying the
message with the attempted path) when the path does not exist, otherwise
return the parsed table. -/
def load_data (fileAt : Option (List Row)) (file_path : String) :
    Except String (List Row) :=
  match fileAt with
  | none => .error ("File not found: " ++ file_path ++ ". Please check the file path.")
  | some df => .ok df

/-- The `FileNotFoundError` message for a given path. -/
def fileNotFoundMsg (file_path : String) : String :=
  "File not found: " ++ file_path ++ ". Please check the file path."

/-- The call `result_df.coalesce(1)`: collapse the result into a single partition. -/
def coalesce1 (res : List ResultRow) : List (List ResultRow) := [res]

/-- The call `write.csv(path, header=True, mode="overwrite")`: one part file per
partition, each with a header row, replacing whatever was at the path. -/
def sparkWriteCsv (partitions : List (List ResultRow)) : List PartFile :=
  partitions.map (fun p => { header := true, rows := p })

/-- The writer `write_output`: create the output directory when absent (`os.makedirs`),
then overwrite the output path with the single-partition CSV write. -/
def write_output (res : List ResultRow) (w : World) : World :=
  { w with outDirExists := true,
           output := some (sparkWriteCsv (coalesce1 res)) }

/-- The call `result_df.show()`: the bounded preview printed by the driver — the first
20 result rows, rendered. -/
def showPreview (res : List ResultRow) : String :=
  reprStr (res.take 20)

/-- The driver `main`: initialize the session, load (catching the missing-file error by
printing it, stopping the session and returning), aggregate, print the
preview, write the output, print the confirmation, and stop the session.
Both paths end in a normal exit (code 0). -/
def main (w : World) : World × RunLog :=
  match load_data w.input input_file with
  | .error e => (w, { printed := [e], stopped := true, exitCode := 0 })
  | .ok df =>
      let result := compare_engagement_levels df
      let w2 := write_output result w
      (w2,
       { printed :=
           ["Engagement Level Comparison Across Job Titles:",
            showPreview result,
            "Results saved to " ++ output_file],
         stopped := true,
         exitCode := 0 })

/-! ## Concrete sample rows (the examples of spec section 8) -/

/-- Example row 1 of spec section 8: `(1,"Eng","SWE",8,"High",false,true)`. -/
def rowHighSWE : Row :=
  { employeeID := some 1, department := some "Eng", jobTitle := some "SWE",
    satisfactionRating := some 8, engagementLevel := some "High",
    reportsConcerns := some false, providedSuggestions := some true }

/-- Example row 2 of spec section 8: `(2,"Eng","SWE",6,"Low",true,false)`. -/
def rowLowSWE : Row :=
  { employeeID := some 2, department := some "Eng", jobTitle := some "SWE",
    satisfactionRating := some 6, engagementLevel := some "Low",
    reportsConcerns := some true, providedSuggestions := some false }

/-- Example row 3 of spec section 8: `(3,"Eng","PM",7,"Medium",false,false)`. -/
def rowMediumPM : Row :=
  { employeeID := some 3, department := some "Eng", jobTitle := some "PM",
    satisfactionRating := some 7, engagementLevel := some "Medium",
    reportsConcerns := some false, providedSuggestions := some false }

/-- Example of spec section 8: a row whose `EngagementLevel` is the unrecognized value
`"Unknown"`. -/
def rowUnknownPM : Row :=
  { employeeID := some 4, department := some "Eng", jobTitle := some "PM",
    satisfactionRating := some 7, engagementLevel := some "Unknown",
    reportsConcerns := some false, providedSuggestions := some false }

/-! ## Helper lemmas -/

/-- The embedded `when` chain agrees with the three-way case mapping of the spec. -/
theorem numeric_eq_spec (e : Option String) :
    engagementLevelNumeric e = specNumericOfLevel e := by
  cases e with
  | none => rfl
  | some s =>
      by_cases h1 : s = "Low" <;> by_cases h2 : s = "Medium" <;> by_cases h3 : s = "High" <;>
        simp [engagementLevelNumeric, specNumericOfLevel, sparkEqStr, caseWhen, h1, h2, h3]

/-- A present derived numeric value is 1, 2 or 3. -/
theorem numeric_mem_of_some {e : Option String} {v : ℤ}
    (h : engagementLevelNumeric e = some v) : v = 1 ∨ v = 2 ∨ v = 3 := by
  rw [numeric_eq_spec] at h
  unfold specNumericOfLevel at h
  split_ifs at h <;> simp_all

/-- The derived column of the converted frame, restricted to one job title,
is the numeric image of the partition of that title. -/
theorem snd_filter_convert (df : List Row) (t : Option String) :
    ((convert_engagement_to_numeric df).filter
        (fun p => decide (p.1.jobTitle = t))).map Prod.snd
      = (groupRows df t).map (fun r => engagementLevelNumeric r.engagementLevel) := by
  induction df with
  | nil => rfl
  | cons r rest ih =>
      by_cases h : r.jobTitle = t <;>
        simp [convert_engagement_to_numeric, groupRows, List.filter_cons, h] <;>
        simpa [convert_engagement_to_numeric, groupRows] using ih

/-- The job titles of the converted frame are the job titles of the input. -/
theorem jobTitles_convert (df : List Row) :
    (convert_engagement_to_numeric df).map (fun p => p.1.jobTitle)
      = df.map Row.jobTitle := by
  simp [convert_engagement_to_numeric, List.map_map, Function.comp]

/-- The average the aggregation assigns to one job title. -/
def avgOfTitle (df : List Row) (t : Option String) : Option ℚ :=
  sparkAvg ((groupRows df t).map (fun r => engagementLevelNumeric r.engagementLevel))

/-- Mapping then keeping the present values is `filterMap`. -/
theorem filterMap_id_map {α β : Type} (f : α → Option β) (l : List α) :
    (l.map f).filterMap id = l.filterMap f := by
  induction l with
  | nil => rfl
  | cons a rest ih => cases h : f a <;> simp [List.filterMap_cons, h, ih]

/-- Characterization of `avgOfTitle` by the present numeric values of the partition. -/
theorem avgOfTitle_def (df : List Row) (t : Option String) :
    avgOfTitle df t =
      if (presentNumerics (groupRows df t)).isEmpty then none
      else some (mkRat (presentNumerics (groupRows df t)).sum
                       (presentNumerics (groupRows df t)).length) := by
  unfold avgOfTitle sparkAvg presentNumerics
  rw [filterMap_id_map]

/-- The unsorted grouped result list underlying `compare_engagement_levels`. -/
theorem compare_eq_sort (df : List Row) :
    compare_engagement_levels df =
      List.insertionSort resultGE
        (((df.map Row.jobTitle).dedup).map (fun t => (t, avgOfTitle df t))) := by
  simp only [compare_engagement_levels]
  rw [jobTitles_convert]
  congr 1
  refine List.map_congr_left (fun t _ => ?_)
  rw [snd_filter_convert]
  rfl

/-- The sorted result is a permutation of the grouped result list. -/
theorem compare_perm (df : List Row) :
    (compare_engagement_levels df).Perm
      (((df.map Row.jobTitle).dedup).map (fun t => (t, avgOfTitle df t))) := by
  rw [compare_eq_sort]
  exact List.perm_insertionSort _ _

/-- Membership in the result is membership in the grouped list. -/
theorem mem_compare {df : List Row} {p : ResultRow} :
    p ∈ compare_engagement_levels df ↔
      ∃ t ∈ (df.map Row.jobTitle).dedup, p = (t, avgOfTitle df t) := by
  rw [(compare_perm df).mem_iff, List.mem_map]
  constructor
  · rintro ⟨t, ht, rfl⟩; exact ⟨t, ht, rfl⟩
  · rintro ⟨t, ht, rfl⟩; exact ⟨t, ht, rfl⟩

/-- The sum of a list of integers, cast to `ℚ`, is the sum of the casts. -/
theorem cast_list_sum_int (l : List ℤ) :
    ((l.sum : ℤ) : ℚ) = (l.map (fun v : ℤ => (v : ℚ))).sum := by
  induction l with
  | nil => simp
  | cons a rest ih => simp [ih]

/-! ## Claims -/

/-- C1: For every input row the derived `EngagementLevelNumeric` column
equals 1 exactly on `"Low"`, 2 on `"Medium"`, 3 on `"High"`, and is absent on
any other value (null included): the embedded `when` chain is the
deterministic total case function of the `EngagementLevel` value alone. -/
theorem C1_numeric_mapping :
    (∀ df : List Row, ∀ p ∈ convert_engagement_to_numeric df,
        p.2 = engagementLevelNumeric p.1.engagementLevel) ∧
      (∀ e : Option String, engagementLevelNumeric e = specNumericOfLevel e) := by
  refine ⟨fun df p hp => ?_, numeric_eq_spec⟩
  unfold convert_engagement_to_numeric at hp
  obtain ⟨r, _, rfl⟩ := List.mem_map.1 hp
  rfl

/-- C1 witness: the mapping evaluated on concrete cells, the membership
hypothesis discharged on a one-row table. -/
theorem C1_numeric_mapping_witness :
    ((rowHighSWE, some 3) : Row × Option ℤ) ∈ convert_engagement_to_numeric [rowHighSWE] ∧
      ((rowHighSWE, some 3) : Row × Option ℤ).2
          = engagementLevelNumeric rowHighSWE.engagementLevel ∧
      engagementLevelNumeric (some "Unknown") = none ∧
      engagementLevelNumeric none = none :=
  ⟨by decide,
   C1_numeric_mapping.1 [rowHighSWE] (rowHighSWE, some 3) (by decide),
   by rw [C1_numeric_mapping.2 (some "Unknown")]; decide,
   by rw [C1_numeric_mapping.2 none]; decide⟩

/-- C9: The transformer is a frame-preserving append: projecting the
appended column away returns exactly the input rows, in order and
multiplicity, with every original column value unchanged. -/
theorem C9_transformer_frame (df : List Row) :
    (convert_engagement_to_numeric df).map Prod.fst = df ∧
      (convert_engagement_to_numeric df).length = df.length := by
  constructor
  · simp [convert_engagement_to_numeric, List.map_map, Function.comp_def]
  · simp [convert_engagement_to_numeric]

/-- C2: Every present average in the result is the arithmetic mean of the
present numeric values of exactly the rows of that job title; rows whose level
maps to an absent value count in neither the sum nor the divisor. -/
theorem C2_avg_is_mean (df : List Row) (t : Option String) (a : ℚ)
    (h : (t, some a) ∈ compare_engagement_levels df) :
    presentNumerics (groupRows df t) ≠ [] ∧
      a = ((presentNumerics (groupRows df t)).map (fun v : ℤ => (v : ℚ))).sum
            / ((presentNumerics (groupRows df t)).length : ℚ) := by
  obtain ⟨t', ht', heq⟩ := mem_compare.1 h
  rw [Prod.mk.injEq] at heq
  obtain ⟨rfl, havg⟩ := heq
  rw [avgOfTitle_def] at havg
  by_cases hempty : (presentNumerics (groupRows df t)).isEmpty
  · rw [if_pos hempty] at havg; exact absurd havg (by simp)
  · rw [if_neg hempty] at havg
    refine ⟨by simpa [List.isEmpty_iff] using hempty, ?_⟩
    obtain rfl : a = mkRat (presentNumerics (groupRows df t)).sum
        (presentNumerics (groupRows df t)).length := Option.some.inj havg
    rw [Rat.mkRat_eq_div, cast_list_sum_int]

/-- C2 witness: on the spec section 8 example the SWE average is `(3 + 1) / 2 = 2`. -/
theorem C2_avg_is_mean_witness :
    presentNumerics (groupRows [rowHighSWE, rowLowSWE, rowMediumPM] (some "SWE")) ≠ [] ∧
      (2 : ℚ) =
        ((presentNumerics (groupRows [rowHighSWE, rowLowSWE, rowMediumPM]
            (some "SWE"))).map (fun v : ℤ => (v : ℚ))).sum
          / ((presentNumerics (groupRows [rowHighSWE, rowLowSWE, rowMediumPM]
              (some "SWE"))).length : ℚ) :=
  C2_avg_is_mean [rowHighSWE, rowLowSWE, rowMediumPM] (some "SWE") 2 (by decide)

/-- C3 counterexample: A single row whose `EngagementLevel` is
`"Unknown"`: its job title has no present numeric value, yet the aggregation
still emits one row for it (with a null average), so the result row count is
1 while the claim predicts 0. -/
theorem C3_count_counterexample :
    (compare_engagement_levels [rowUnknownPM]).length
      ≠ specTitleCountWithPresent [rowUnknownPM] := by decide

/-- C3 amended: The result row count equals the number of distinct
`JobTitle` values in the input — including titles all of whose rows have an
unrecognized `EngagementLevel`, which appear with a null average. -/
theorem C3_count_amended (df : List Row) :
    (compare_engagement_levels df).length = ((df.map Row.jobTitle).dedup).length := by
  rw [(compare_perm df).length_eq, List.length_map]

/-- C4: One result row per distinct `JobTitle` value of the input (the
first components of the result are a permutation of the duplicate-free list
of titles), and a partition with no present numeric value gets a null
average, not zero. -/
theorem C4_row_per_partition (df : List Row) :
    ((compare_engagement_levels df).map Prod.fst).Perm ((df.map Row.jobTitle).dedup) ∧
      ∀ p ∈ compare_engagement_levels df,
        presentNumerics (groupRows df p.1) = [] → p.2 = none := by
  constructor
  · have h := (compare_perm df).map Prod.fst
    rw [List.map_map] at h
    simpa [Function.comp_def] using h
  · intro p hp hempty
    obtain ⟨t, _, rfl⟩ := mem_compare.1 hp
    show avgOfTitle df t = none
    rw [avgOfTitle_def, if_pos (by simpa [List.isEmpty_iff] using hempty)]

/-- C4 witness: On the all-`"Unknown"` title the emitted row is
`(some "PM", none)`. -/
theorem C4_row_per_partition_witness :
    ((compare_engagement_levels [rowUnknownPM]).map Prod.fst).Perm
        (([rowUnknownPM].map Row.jobTitle).dedup) ∧
      ((some "PM", (none : Option ℚ)) : ResultRow) ∈
          compare_engagement_levels [rowUnknownPM] ∧
      ((some "PM", (none : Option ℚ)) : ResultRow).2 = none :=
  ⟨(C4_row_per_partition [rowUnknownPM]).1,
   by decide,
   (C4_row_per_partition [rowUnknownPM]).2 (some "PM", none) (by decide) (by decide)⟩

/-- C5: The result rows are sorted by `AvgEngagementLevel` descending:
the key of every later row is at most the key of every earlier row, a null
average ranking below every present value (the `desc` of Spark is nulls-last). -/
theorem C5_sorted_descending (df : List Row) :
    (compare_engagement_levels df).Pairwise
      (fun p q : ResultRow => toKey q.2 ≤ toKey p.2) := by
  rw [compare_eq_sort]
  exact List.sorted_insertionSort resultGE _

/-- The mean of a nonempty list of values from `{1, 2, 3}` lies in `[1, 3]`. -/
theorem mkRat_mean_bounds (vs : List ℤ) (hne : vs ≠ [])
    (h : ∀ v ∈ vs, v = 1 ∨ v = 2 ∨ v = 3) :
    1 ≤ mkRat vs.sum vs.length ∧ mkRat vs.sum vs.length ≤ 3 := by
  have hlen : 0 < vs.length := List.length_pos.2 hne
  have hlenQ : 0 < (vs.length : ℚ) := by exact_mod_cast hlen
  have hlow : (vs.length : ℤ) • (1 : ℤ) ≤ vs.sum :=
    List.card_nsmul_le_sum vs 1 (fun v hv => by rcases h v hv with rfl | rfl | rfl <;> omega)
  have hhigh : vs.sum ≤ (vs.length : ℤ) • (3 : ℤ) :=
    List.sum_le_card_nsmul vs 3 (fun v hv => by rcases h v hv with rfl | rfl | rfl <;> omega)
  rw [smul_eq_mul] at hlow hhigh
  rw [Rat.mkRat_eq_div]
  constructor
  · rw [le_div_iff₀ hlenQ, one_mul]
    exact_mod_cast le_trans (by exact_mod_cast le_of_eq (mul_one _).symm) hlow
  · rw [div_le_iff₀ hlenQ]
    calc ((vs.sum : ℤ) : ℚ) ≤ ((vs.length * 3 : ℤ) : ℚ) := by exact_mod_cast hhigh
      _ = 3 * (vs.length : ℚ) := by push_cast; ring

/-- Every present numeric value of a partition is 1, 2 or 3. -/
theorem presentNumerics_mem {rows : List Row} {v : ℤ}
    (hv : v ∈ presentNumerics rows) : v = 1 ∨ v = 2 ∨ v = 3 := by
  obtain ⟨r, _, hr⟩ := List.mem_filterMap.1 hv
  exact numeric_mem_of_some hr

/-- C10: Every present `AvgEngagementLevel` in the result lies in the
closed interval `[1, 3]`. -/
theorem C10_avg_bounds (df : List Row) (p : ResultRow) (a : ℚ)
    (hp : p ∈ compare_engagement_levels df) (ha : p.2 = some a) :
    1 ≤ a ∧ a ≤ 3 := by
  obtain ⟨t, _, rfl⟩ := mem_compare.1 hp
  replace ha : avgOfTitle df t = some a := ha
  rw [avgOfTitle_def] at ha
  by_cases hempty : (presentNumerics (groupRows df t)).isEmpty
  · rw [if_pos hempty] at ha; exact absurd ha (by simp)
  · rw [if_neg hempty] at ha
    obtain rfl : mkRat (presentNumerics (groupRows df t)).sum
        (presentNumerics (groupRows df t)).length = a := Option.some.inj ha
    exact mkRat_mean_bounds _ (by simpa [List.isEmpty_iff] using hempty)
      (fun v hv => presentNumerics_mem hv)

/-- C10 witness: the SWE average 2 of the spec section 8 example lies in `[1, 3]`. -/
theorem C10_avg_bounds_witness : 1 ≤ (2 : ℚ) ∧ (2 : ℚ) ≤ 3 :=
  C10_avg_bounds [rowHighSWE, rowLowSWE, rowMediumPM] (some "SWE", some 2) 2
    (by decide) rfl

/-- C6: The loader fails with the `FileNotFound` message carrying the
attempted path exactly when the path is absent; on a missing input the driver
prints only that message, stops the session, exits 0, runs no later stage and
leaves the file system untouched (no output created or modified). -/
theorem C6_missing_input_handling :
    (∀ (content : Option (List Row)) (path : String),
        load_data content path = Except.error (fileNotFoundMsg path) ↔ content = none) ∧
      ∀ w : World, w.input = none →
        (main w).1 = w ∧
          (main w).2.printed = [fileNotFoundMsg input_file] ∧
          (main w).2.stopped = true ∧
          (main w).2.exitCode = 0 := by
  constructor
  · intro content path
    cases content <;> simp [load_data, fileNotFoundMsg]
  · intro w hw
    simp [main, load_data, hw, fileNotFoundMsg]

/-- C6 witness: A world with no input file and no output: the error
message is raised and the run changes nothing, exiting 0. -/
theorem C6_missing_input_handling_witness :
    (load_data (none : Option (List Row)) input_file
        = Except.error (fileNotFoundMsg input_file)) ∧
      (main { input := none, outDirExists := false, output := none }).1
          = { input := none, outDirExists := false, output := none } ∧
      (main { input := none, outDirExists := false, output := none }).2.printed
          = [fileNotFoundMsg input_file] ∧
      (main { input := none, outDirExists := false, output := none }).2.stopped = true ∧
      (main { input := none, outDirExists := false, output := none }).2.exitCode = 0 :=
  ⟨(C6_missing_input_handling.1 none input_file).2 rfl,
   (C6_missing_input_handling.2 { input := none, outDirExists := false, output := none } rfl).1,
   (C6_missing_input_handling.2 { input := none, outDirExists := false, output := none } rfl).2.1,
   (C6_missing_input_handling.2 { input := none, outDirExists := false, output := none } rfl).2.2.1,
   (C6_missing_input_handling.2 { input := none, outDirExists := false, output := none } rfl).2.2.2⟩

/-- C7: For every result table and prior world the writer leaves the
output directory existing (creating it when absent), overwrites whatever was
at the output path with exactly one CSV part file carrying a header and all
result rows, and touches nothing else. -/
theorem C7_writer_single_file (res : List ResultRow) (w : World) :
    (write_output res w).outDirExists = true ∧
      (write_output res w).output = some [{ header := true, rows := res }] ∧
      (sparkWriteCsv (coalesce1 res)).length = 1 ∧
      (write_output res w).input = w.input :=
  ⟨rfl, rfl, rfl, rfl⟩

/-- C8: The pipeline is idempotent: a second run on the world left by a
first run produces the identical world and the identical observable log. -/
theorem C8_idempotent (w : World) :
    main ((main w).1) = main w := by
  cases h : w.input with
  | none => simp [main, load_data, h]
  | some df => simp [main, load_data, h, write_output]

end Engagement
